import Mathlib

/-!
Verification of the trapavilion-grafana exporters

Shallow embedding of `src/time_table/main.go` (schedule exporter) and
`src/network-exporter/main.go` (speedtest exporter).

Modelling conventions.

* A Go `time.Time` is an instant: an integer number of nanoseconds counted from
  Go's zero time `0001-01-01T00:00:00Z`.  The accessors `sec`, `nsec` and the
  methods `IsZero`, `Equal`, `After`, `Before`, `Unix`, `Add`, `Sub` follow the
  standard library (wall-clock readings only: every instant handled by the two
  programs has had its monotonic reading stripped by `UTC()` or never had one).
* A Go `time.Duration` is an `Int` of nanoseconds confined to the `int64` range;
  `Time.Sub` saturates exactly as the library does.
* A Go `float64` gauge value is an exact rational (`ℚ`): `*`, `/` and `+` stand
  for the IEEE operations and rounding is not modelled.
* A Prometheus channel `chan<- prometheus.Metric` is the list of samples sent on
  it, in sending order.  Where the source ranges over a Go map (random order)
  the entries are listed in the order of the map literal; every statement below
  is about membership and counts and so does not depend on that order.
* Results of the operating system (stat, file read, subprocess) and of the
  YAML / JSON decoders are inputs of the model.
-/

set_option autoImplicit false

/-! ## The Go `time` package, as far as the exporters use it -/

namespace GoTime

/-- A `time.Time`: nanoseconds since `0001-01-01T00:00:00Z`. -/
structure Time where
  nanos : Int
deriving DecidableEq, Repr

/-- A `time.Duration`: nanoseconds, an `int64` (an `Int` kept inside that range). -/
abbrev Duration := Int

/-- The value `1<<63 - 1` of `maxDuration`. -/
def maxDuration : Int := 9223372036854775807

/-- The value `-1 << 63` of `minDuration`. -/
def minDuration : Int := -9223372036854775808

/-- The constant `time.Second`. -/
def Second : Int := 1000000000

/-- Two's-complement wrap-around of an `int64` computation. -/
def wrapInt64 (x : Int) : Int :=
  (x + 9223372036854775808) % 18446744073709551616 - 9223372036854775808

/-- Seconds since January 1, year 1 (`t.sec()`). -/
def Time.sec (t : Time) : Int := t.nanos / 1000000000

/-- Nanoseconds within the second, in `[0, 999999999]` (`t.nsec()`). -/
def Time.nsec (t : Time) : Int := t.nanos % 1000000000

/-- The zero value `time.Time{}`. -/
def Time.zero : Time := ⟨0⟩

/-- Library `IsZero` reports whether `t` is January 1, year 1, 00:00:00 UTC. -/
def Time.IsZero (t : Time) : Bool := t.sec == 0 && t.nsec == 0

/-- Library `Equal` reports whether `t` and `u` are the same instant. -/
def Time.Equal (t u : Time) : Bool := t.sec == u.sec && t.nsec == u.nsec

/-- Library `After` reports whether `t` is after `u`. -/
def Time.After (t u : Time) : Bool :=
  decide (t.sec > u.sec) || (t.sec == u.sec && decide (t.nsec > u.nsec))

/-- Library `Before` reports whether `t` is before `u`. -/
def Time.Before (t u : Time) : Bool :=
  decide (t.sec < u.sec) || (t.sec == u.sec && decide (t.nsec < u.nsec))

/-- The constant `unixToInternal`: seconds from year 1 to 1970. -/
def unixToInternal : Int := (1969 * 365 + 1969 / 4 - 1969 / 100 + 1969 / 400) * 86400

/-- The constant `internalToUnix`. -/
def internalToUnix : Int := -unixToInternal

/-- Library `Unix` returns the seconds elapsed since January 1, 1970 UTC. -/
def Time.Unix (t : Time) : Int := t.sec + internalToUnix

/-- Library `UTC` keeps the instant and only changes the location. -/
def Time.UTC (t : Time) : Time := t

/-- Library `Add` returns `t+d` (seconds stay far inside `int64` for every instant
between the years 0 and 9999, so the library's overflow guard is not hit). -/
def Time.Add (t : Time) (d : Int) : Time :=
  let dsec := Int.tdiv d 1000000000
  let nsec := t.nsec + Int.tmod d 1000000000
  if nsec ≥ 1000000000 then ⟨(t.sec + (dsec + 1)) * 1000000000 + (nsec - 1000000000)⟩
  else if nsec < 0 then ⟨(t.sec + (dsec - 1)) * 1000000000 + (nsec + 1000000000)⟩
  else ⟨(t.sec + dsec) * 1000000000 + nsec⟩

/-- Library `Sub` returns the duration `t-u`, saturated at `minDuration` / `maxDuration`
when the difference does not fit. -/
def Time.Sub (t u : Time) : Int :=
  let d := wrapInt64 ((t.sec - u.sec) * Second + (t.nsec - u.nsec))
  if (u.Add d).Equal t then d
  else if t.Before u then minDuration
  else maxDuration

/-- Library `Duration.Seconds`: `float64(d / Second) + float64(d % Second) / 1e9`. -/
def Duration.Seconds (d : Int) : ℚ :=
  ((Int.tdiv d Second : Int) : ℚ) + ((Int.tmod d Second : Int) : ℚ) / 1000000000

/-! ### The RFC 3339 fast path of `time.Parse` -/

/-- Library `isLeap` reports whether `year` is a leap year. -/
def isLeap (year : Int) : Bool :=
  year % 4 == 0 && (year % 100 != 0 || year % 400 == 0)

/-- Library `daysIn` returns the number of days in month `m` of `year`. -/
def daysIn (m : Int) (year : Int) : Int :=
  if m == 2 then (if isLeap year then 29 else 28)
  else if m == 4 || m == 6 || m == 9 || m == 11 then 30
  else 31

/-- The table `daysBefore`: days in a non-leap year before month `m` starts. -/
def daysBefore (m : Int) : Int :=
  if m == 1 then 0 else if m == 2 then 31 else if m == 3 then 59 else if m == 4 then 90
  else if m == 5 then 120 else if m == 6 then 151 else if m == 7 then 181
  else if m == 8 then 212 else if m == 9 then 243 else if m == 10 then 273
  else if m == 11 then 304 else 334

/-- Library `Date(year, month, day, hour, min, sec, nsec, UTC)` for arguments already in
their normal ranges (the only way the fast path calls it). -/
def Date (year month day hour min sec nsec : Int) : Time :=
  let y := year - 1
  let d := 365 * y + y / 4 - y / 100 + y / 400 + daysBefore month
    + (if isLeap year && decide (month ≥ 3) then 1 else 0) + (day - 1)
  ⟨(d * 86400 + hour * 3600 + min * 60 + sec) * 1000000000 + nsec⟩

/-- The test `'0' <= c && c <= '9'`. -/
def isDigit (c : Char) : Bool := decide ('0' ≤ c) && decide (c ≤ '9')

/-- The accumulation `x = x*10 + int(c) - '0'` over a run of digits; `none` when a
character is not a digit. -/
def digitsValue : List Char → Int → Option Int
  | [], x => some x
  | c :: cs, x => if isDigit c then digitsValue cs (x * 10 + ((c.toNat : Int) - 48)) else none

/-- The closure `parseUint` of `parseRFC3339`; `none` stands for `ok = false`. -/
def parseUint (s : List Char) (min max : Int) : Option Int :=
  match digitsValue s 0 with
  | none => none
  | some x => if x < min ∨ max < x then none else some x

/-- The slice `s[i:j]`. -/
def slice (s : List Char) (i j : Nat) : List Char := (s.take j).drop i

/-- Library `parseNanoseconds(value, nbytes)` on a period followed by `nbytes - 1` digits:
at most nine digits are read and scaled to nanoseconds. -/
def parseNanoseconds (value : List Char) (nbytes : Nat) : Int :=
  let nbytes := if nbytes > 10 then 10 else nbytes
  match digitsValue (slice value 1 nbytes) 0 with
  | none => 0
  | some ns => ns * 10 ^ (10 - nbytes)

/-- The zone part of `parseRFC3339`: the offset in seconds east of UTC that is
subtracted from the instant (`0` for `Z`). -/
def parseZone (s : List Char) : Option Int :=
  if s = ['Z'] then some 0
  else if s.length ≠ 6 then none
  else
    match parseUint (slice s 1 3) 0 23, parseUint (slice s 4 6) 0 59 with
    | some hr, some mm =>
      if (s.get? 0 = some '-' ∨ s.get? 0 = some '+') ∧ s.get? 3 = some ':' then
        some (if s.get? 0 = some '-' then -((hr * 60 + mm) * 60) else (hr * 60 + mm) * 60)
      else none
    | _, _ => none

/-- The function `parseRFC3339` that `time.Parse` tries first for the layout
`time.RFC3339`; when it accepts, `time.Parse` returns its result.  `none` means the
fast path declined (the library then falls back to its general parser, which is
not modelled). -/
def parseRFC3339 (str : String) : Option Time :=
  let s := str.data
  if s.length < 19 then none
  else
    match parseUint (slice s 0 4) 0 9999, parseUint (slice s 5 7) 1 12 with
    | some year, some month =>
      match parseUint (slice s 8 10) 1 (daysIn month year), parseUint (slice s 11 13) 0 23,
            parseUint (slice s 14 16) 0 59, parseUint (slice s 17 19) 0 59 with
      | some day, some hour, some min, some sec =>
        if ¬ (s.get? 4 = some '-' ∧ s.get? 7 = some '-' ∧ s.get? 10 = some 'T' ∧
              s.get? 13 = some ':' ∧ s.get? 16 = some ':') then none
        else
          let s := s.drop 19
          let hasFrac := decide (s.length ≥ 2) && s.get? 0 == some '.' &&
            (s.get? 1).any isDigit
          let n := if hasFrac then 2 + ((s.drop 2).takeWhile isDigit).length else 0
          let nsec := if hasFrac then parseNanoseconds s n else 0
          let s := s.drop n
          match parseZone s with
          | none => none
          | some zoneOffset =>
            let t := Date year month day hour min sec nsec
            some ⟨t.nanos - zoneOffset * 1000000000⟩
      | _, _, _, _ => none
    | _, _ => none

/-- The call `time.Parse(time.RFC3339, s)` restricted to the strings its fast path
accepts; every other string is reported as an error. -/
def parseStrict (s : String) : Except String Time :=
  match parseRFC3339 s with
  | some t => .ok t
  | none => .error ("parsing time " ++ s ++ ": not accepted by the RFC 3339 fast path")

end GoTime

/-! ## `src/time_table/main.go` -/

namespace TimeTable

open GoTime

/-- The struct `Event`: five YAML fields and the two parsed instants. -/
structure Event where
  ID : String
  Name : String
  Location : String
  Start : String
  End : String
  startTime : Time
  endTime : Time
deriving DecidableEq, Repr

/-- The four descriptors of `EventCollector`. -/
inductive Desc where
  | descStart
  | descEnd
  | descDuration
  | descActive
deriving DecidableEq, Repr

/-- A sample built by `prometheus.MustNewConstMetric(desc, GaugeValue, value, labels...)`. -/
structure Metric where
  desc : Desc
  value : ℚ
  labels : List String
deriving DecidableEq

/-- The struct `EventCollector` (descriptors are the constants of `Desc`). -/
structure EventCollector where
  eventsPath : String
  events : List Event

/-- The value of `active` computed at lines 113-116. -/
def activeValue (now : Time) (e : Event) : ℚ :=
  if !e.startTime.IsZero && !e.endTime.IsZero &&
      (now.Equal e.startTime || now.Equal e.endTime ||
        (now.After e.startTime && now.Before e.endTime)) then 1 else 0

/-- The value of `dur` computed at lines 106-109. -/
def durationValue (e : Event) : ℚ :=
  let dur := Duration.Seconds (e.endTime.Sub e.startTime)
  if dur < 0 then 0 else dur

/-- One iteration of the loop of `Collect` (lines 94-117): the samples sent for `e`. -/
def collectEvent (now : Time) (e : Event) : List Metric :=
  let labels := [e.ID, e.Name, e.Location]
  (if !e.startTime.IsZero then [⟨Desc.descStart, (e.startTime.Unix : ℚ), labels⟩] else []) ++
  (if !e.endTime.IsZero then [⟨Desc.descEnd, (e.endTime.Unix : ℚ), labels⟩] else []) ++
  (if !e.startTime.IsZero && !e.endTime.IsZero then
      [⟨Desc.descDuration, durationValue e, labels⟩] else []) ++
  [⟨Desc.descActive, activeValue now e, labels⟩]

/-- The loop `for _, e := range events` of `Collect`. -/
def collectLoop (now : Time) : List Event → List Metric
  | [] => []
  | e :: rest => collectEvent now e ++ collectLoop now rest

/-- Source `EventCollector.Collect`: `now` is the reading of `time.Now().UTC()`. -/
def EventCollector.Collect (c : EventCollector) (now : Time) : List Metric :=
  collectLoop now.UTC c.events

/-- The Go error value: `none` is `nil`. -/
abbrev GoError := Option String

/-- The loop at lines 137-154 of `loadEventsFromFile`; `parse` is
`time.Parse(time.RFC3339, ·)`.  An error stops the loop at the first bad item. -/
def parseTimes (parse : String → Except String Time) : List Event → Except String (List Event)
  | [] => .ok []
  | ev :: rest =>
    if ev.Start = "" ∨ ev.End = "" then
      .error "start and end must be provided in RFC3339 format for each event"
    else
      match parse ev.Start with
      | .error err => .error ("parse start time for id=" ++ ev.ID ++ ": " ++ err)
      | .ok tStart =>
        match parse ev.End with
        | .error err => .error ("parse end time for id=" ++ ev.ID ++ ": " ++ err)
        | .ok tEnd =>
          match parseTimes parse rest with
          | .error err => .error err
          | .ok done => .ok ({ ev with startTime := tStart.UTC, endTime := tEnd.UTC } :: done)

/-- Source `loadEventsFromFile`: `decoded` is the outcome of `os.Open`, `io.ReadAll` and
`yaml.Unmarshal` (the list `el.Events`, or the error of the first step that
failed).  The result is the Go pair `([]Event, error)`; the `nil` slice is `[]`. -/
def loadEventsFromFile (parse : String → Except String Time)
    (decoded : Except String (List Event)) : List Event × GoError :=
  match decoded with
  | .error err => ([], some err)
  | .ok events =>
    match parseTimes parse events with
    | .error err => ([], some err)
    | .ok loaded => (loaded, none)

/-- What one iteration of `watchLoop` reads from the outside world. -/
structure TickInput where
  stat : Except String Time
  decoded : Except String (List Event)

/-- The state `watchLoop` carries from tick to tick: `c.events` and `lastMod`;
`loads` counts the calls of `loadEventsFromFile` and `logs` the `log.Printf` lines. -/
structure WatchState where
  events : List Event
  lastMod : Time
  loads : Nat
  logs : List String

/-- The state before the first tick: `var lastMod time.Time`. -/
def WatchState.init (events : List Event) : WatchState :=
  { events := events, lastMod := Time.zero, loads := 0, logs := [] }

/-- The `case <-ticker.C:` branch of `watchLoop` (lines 169-188). -/
def watchTick (parse : String → Except String Time) (st : WatchState)
    (inp : TickInput) : WatchState :=
  match inp.stat with
  | .error err => { st with logs := st.logs ++ ["stat events file: " ++ err] }
  | .ok mod =>
    if mod.After st.lastMod then
      match loadEventsFromFile parse inp.decoded with
      | (_, some err) =>
        { st with lastMod := mod, loads := st.loads + 1,
                  logs := st.logs ++ ["failed to load events: " ++ err] }
      | (events, none) =>
        { events := events, lastMod := mod, loads := st.loads + 1,
          logs := st.logs ++ ["loaded " ++ toString events.length ++ " events"] }
    else st

/-- The loop `watchLoop` run over a finite sequence of ticks. -/
def watchLoop (parse : String → Except String Time) (st : WatchState) :
    List TickInput → WatchState
  | [] => st
  | inp :: rest => watchLoop parse (watchTick parse st inp) rest

/-- The label values `[]string{e.ID, e.Name, e.Location}` of an item. -/
def itemLabels (e : Event) : List String := [e.ID, e.Name, e.Location]

/-- The values of the samples of `ms` that carry descriptor `d`, in order. -/
def valuesOf (ms : List Metric) (d : Desc) : List ℚ :=
  (ms.filter (fun m => decide (m.desc = d))).map (fun m => m.value)

/-- The label values of the samples of `ms` that carry descriptor `d`, in order. -/
def labelsOf (ms : List Metric) (d : Desc) : List (List String) :=
  (ms.filter (fun m => decide (m.desc = d))).map (fun m => m.labels)

/-- An item as `yaml.Unmarshal` leaves it: the five strings are filled in and the
unexported instants are still the zero value. -/
def rawEvent (id name location start stop : String) : Event :=
  ⟨id, name, location, start, stop, Time.zero, Time.zero⟩

end TimeTable

/-! ## `src/network-exporter/main.go` -/

namespace NetworkExporter

/-- The struct `transferLatency`. -/
structure transferLatency where
  IQM : ℚ
  Low : ℚ
  High : ℚ
  Jitter : ℚ
deriving DecidableEq

/-- The struct `transferResult`. -/
structure transferResult where
  Bandwidth : ℚ
  Bytes : ℚ
  Elapsed : ℚ
  Latency : transferLatency
deriving DecidableEq

/-- The struct `pingResult`. -/
structure pingResult where
  Jitter : ℚ
  Latency : ℚ
  Low : ℚ
  High : ℚ
deriving DecidableEq

/-- The struct `speedtestResult` (`Type_` is the Go field `Type`; the pointer
`PacketLoss` is an `Option`). -/
structure speedtestResult where
  Type_ : String
  Timestamp : String
  Ping : pingResult
  Download : transferResult
  Upload : transferResult
  PacketLoss : Option ℚ
deriving DecidableEq

/-- The nine descriptors held by `exporter`. -/
inductive Desc where
  | downloadBandwidth
  | uploadBandwidth
  | downloadLatency
  | uploadLatency
  | pingLatency
  | pingJitter
  | packetLoss
  | scrapeDuration
  | scrapeSuccess
deriving DecidableEq, Repr

/-- A sample built by `prometheus.MustNewConstMetric(desc, GaugeValue, value, labels...)`. -/
structure Metric where
  desc : Desc
  value : ℚ
  labels : List String
deriving DecidableEq

/-- Source `exporter.Describe`: the descriptors sent, in order. -/
def Describe : List Desc :=
  [Desc.downloadBandwidth, Desc.uploadBandwidth, Desc.downloadLatency, Desc.uploadLatency,
   Desc.pingLatency, Desc.pingJitter, Desc.packetLoss, Desc.scrapeDuration, Desc.scrapeSuccess]

/-- The pair returned by `cmd.CombinedOutput()`. -/
structure CmdResult where
  output : String
  err : Option String

/-- The three errors `runSpeedtest` can return.  `commandFailed` carries the error
of `cmd.CombinedOutput()` and the captured output, from which the message
`command failed: err` (followed by the trimmed output when there is any) is built. -/
inductive RunError where
  | commandFailed (err : String) (output : String)
  | decodeFailed (err : String)
  | missingBandwidth
deriving DecidableEq, Repr

/-- Source `exporter.runSpeedtest`: `cmd` is the outcome of the subprocess and
`unmarshal` is `json.Unmarshal` into a `speedtestResult`. -/
def runSpeedtest (unmarshal : String → Except String speedtestResult) (cmd : CmdResult) :
    Except RunError speedtestResult :=
  match cmd.err with
  | some err => .error (RunError.commandFailed err cmd.output)
  | none =>
    match unmarshal cmd.output with
    | .error err => .error (RunError.decodeFailed err)
    | .ok result =>
      if result.Download.Bandwidth == 0 && result.Upload.Bandwidth == 0 then
        .error RunError.missingBandwidth
      else .ok result

/-- The samples `Collect` sends after a successful `runSpeedtest` (lines 168-213). -/
def collectResult (result : speedtestResult) (elapsed : ℚ) : List Metric :=
  [⟨Desc.downloadBandwidth, result.Download.Bandwidth * 8, []⟩,
   ⟨Desc.uploadBandwidth, result.Upload.Bandwidth * 8, []⟩] ++
  [("iqm", result.Download.Latency.IQM / 1000),
   ("low", result.Download.Latency.Low / 1000),
   ("high", result.Download.Latency.High / 1000),
   ("jitter", result.Download.Latency.Jitter / 1000)].map
    (fun sv => ⟨Desc.downloadLatency, sv.2, [sv.1]⟩) ++
  [("iqm", result.Upload.Latency.IQM / 1000),
   ("low", result.Upload.Latency.Low / 1000),
   ("high", result.Upload.Latency.High / 1000),
   ("jitter", result.Upload.Latency.Jitter / 1000)].map
    (fun sv => ⟨Desc.uploadLatency, sv.2, [sv.1]⟩) ++
  [("latency", result.Ping.Latency / 1000),
   ("low", result.Ping.Low / 1000),
   ("high", result.Ping.High / 1000)].map
    (fun sv => ⟨Desc.pingLatency, sv.2, [sv.1]⟩) ++
  [⟨Desc.pingJitter, result.Ping.Jitter / 1000, []⟩,
   ⟨Desc.packetLoss, (match result.PacketLoss with | some p => p | none => 0), []⟩,
   ⟨Desc.scrapeSuccess, 1, []⟩,
   ⟨Desc.scrapeDuration, elapsed, []⟩]

/-- Source `exporter.Collect`: `elapsed` is the reading of `time.Since(start).Seconds()`. -/
def Collect (unmarshal : String → Except String speedtestResult) (cmd : CmdResult)
    (elapsed : ℚ) : List Metric :=
  match runSpeedtest unmarshal cmd with
  | .error _ =>
    [⟨Desc.scrapeSuccess, 0, []⟩, ⟨Desc.scrapeDuration, elapsed, []⟩]
  | .ok result => collectResult result elapsed

/-- The values of the samples of `ms` that carry descriptor `d` and label values `ls`. -/
def valuesOf (ms : List Metric) (d : Desc) (ls : List String) : List ℚ :=
  (ms.filter (fun m => decide (m.desc = d) && decide (m.labels = ls))).map (fun m => m.value)

/-- The number of samples of `ms` that carry descriptor `d`. -/
def countOf (ms : List Metric) (d : Desc) : Nat :=
  (ms.filter (fun m => decide (m.desc = d))).length

/-- A reading with every latency figure at 1000 ms and both bandwidths at
1,000,000 bytes per second. -/
def sampleResult : speedtestResult :=
  { Type_ := "result", Timestamp := "2025-11-04T11:00:00Z",
    Ping := ⟨1000, 1000, 1000, 1000⟩,
    Download := ⟨1000000, 12500000, 10000, ⟨1000, 1000, 1000, 1000⟩⟩,
    Upload := ⟨1000000, 12500000, 10000, ⟨1000, 1000, 1000, 1000⟩⟩,
    PacketLoss := none }

/-- The all-zero structure the tool prints on some failures. -/
def zeroResult : speedtestResult :=
  { Type_ := "", Timestamp := "",
    Ping := ⟨0, 0, 0, 0⟩,
    Download := ⟨0, 0, 0, ⟨0, 0, 0, 0⟩⟩,
    Upload := ⟨0, 0, 0, ⟨0, 0, 0, 0⟩⟩,
    PacketLoss := none }

end NetworkExporter


/-! ## Facts about the `time` model -/

namespace GoTime

theorem Time.IsZero_iff (t : Time) : t.IsZero = true ↔ t.nanos = 0 := by
  simp only [Time.IsZero, Time.sec, Time.nsec, Bool.and_eq_true, beq_iff_eq]
  omega

theorem Time.IsZero_eq_false_iff (t : Time) : t.IsZero = false ↔ t.nanos ≠ 0 := by
  rw [← Bool.not_eq_true, Time.IsZero_iff]

theorem Time.Equal_iff (t u : Time) : t.Equal u = true ↔ t.nanos = u.nanos := by
  simp only [Time.Equal, Time.sec, Time.nsec, Bool.and_eq_true, beq_iff_eq]
  omega

theorem Time.After_iff (t u : Time) : t.After u = true ↔ u.nanos < t.nanos := by
  simp only [Time.After, Time.sec, Time.nsec, Bool.or_eq_true, Bool.and_eq_true, beq_iff_eq,
    decide_eq_true_eq]
  omega

theorem Time.Before_iff (t u : Time) : t.Before u = true ↔ t.nanos < u.nanos := by
  simp only [Time.Before, Time.sec, Time.nsec, Bool.or_eq_true, Bool.and_eq_true, beq_iff_eq,
    decide_eq_true_eq]
  omega

theorem Time.Add_nanos (t : Time) (d : Int) : (t.Add d).nanos = t.nanos + d := by
  have h := Int.tdiv_add_tmod d 1000000000
  have h1 := Int.emod_add_ediv t.nanos 1000000000
  simp only [Time.Add, Time.sec, Time.nsec]
  split_ifs <;> simp only <;> omega

theorem wrapInt64_eq_self_iff (x : Int) :
    wrapInt64 x = x ↔ minDuration ≤ x ∧ x ≤ maxDuration := by
  simp only [wrapInt64, minDuration, maxDuration]
  omega

theorem sec_nsec_diff (t u : Time) :
    (t.sec - u.sec) * Second + (t.nsec - u.nsec) = t.nanos - u.nanos := by
  simp only [Time.sec, Time.nsec, Second]
  omega

/-- Library `Sub` is the exact difference clamped to the `int64` range. -/
theorem Time.Sub_eq (t u : Time) :
    t.Sub u =
      if t.nanos - u.nanos < minDuration then minDuration
      else if maxDuration < t.nanos - u.nanos then maxDuration
      else t.nanos - u.nanos := by
  have hw := wrapInt64_eq_self_iff (t.nanos - u.nanos)
  have hb := Time.Before_iff t u
  have he := Time.Equal_iff (u.Add (wrapInt64 (t.nanos - u.nanos))) t
  rw [Time.Add_nanos] at he
  simp only [Time.Sub, sec_nsec_diff]
  simp only [minDuration, maxDuration] at hw ⊢
  by_cases h1 : t.nanos - u.nanos < -9223372036854775808
  · have hne : ¬ ((u.Add (wrapInt64 (t.nanos - u.nanos))).Equal t = true) := by
      rw [he]; intro h; have := hw.1 (by omega); omega
    have hbt : t.Before u = true := hb.2 (by omega)
    simp [hne, hbt, h1]
  · by_cases h2 : 9223372036854775807 < t.nanos - u.nanos
    · have hne : ¬ ((u.Add (wrapInt64 (t.nanos - u.nanos))).Equal t = true) := by
        rw [he]; intro h; have := hw.1 (by omega); omega
      have hbt : ¬ (t.Before u = true) := by rw [hb]; omega
      simp [hne, hbt, h1, h2]
    · have hwx : wrapInt64 (t.nanos - u.nanos) = t.nanos - u.nanos := hw.2 (by omega)
      have heq : (u.Add (wrapInt64 (t.nanos - u.nanos))).Equal t = true := by
        rw [he, hwx]; omega
      rw [if_pos heq, hwx, if_neg h1, if_neg h2]

/-- Library `Seconds` is the duration divided by `10^9`. -/
theorem Duration.Seconds_eq (d : Int) : Duration.Seconds d = (d : ℚ) / 1000000000 := by
  have h := Int.tdiv_add_tmod d 1000000000
  have hq : ((1000000000 * Int.tdiv d 1000000000 + Int.tmod d 1000000000 : Int) : ℚ) = (d : ℚ) := by
    rw [h]
  simp only [Duration.Seconds, Second]
  rw [← hq]
  push_cast
  ring

end GoTime

/-! ## Facts about `EventCollector.Collect` -/

namespace TimeTable

open GoTime

theorem valuesOf_append (xs ys : List Metric) (d : Desc) :
    valuesOf (xs ++ ys) d = valuesOf xs d ++ valuesOf ys d := by
  simp [valuesOf]

theorem labelsOf_append (xs ys : List Metric) (d : Desc) :
    labelsOf (xs ++ ys) d = labelsOf xs d ++ labelsOf ys d := by
  simp [labelsOf]

/-- The guard of line 114 in terms of instants. -/
theorem activeCond_iff (now : Time) (e : Event) :
    (!e.startTime.IsZero && !e.endTime.IsZero &&
      (now.Equal e.startTime || now.Equal e.endTime ||
        (now.After e.startTime && now.Before e.endTime))) = true ↔
    (e.startTime.nanos ≠ 0 ∧ e.endTime.nanos ≠ 0 ∧
      (now.nanos = e.startTime.nanos ∨ now.nanos = e.endTime.nanos ∨
        (e.startTime.nanos < now.nanos ∧ now.nanos < e.endTime.nanos))) := by
  simp only [Bool.and_eq_true, Bool.or_eq_true, Bool.not_eq_true', Time.IsZero_eq_false_iff,
    Time.Equal_iff, Time.After_iff, Time.Before_iff, and_assoc, or_assoc]

theorem activeValue_eq (now : Time) (e : Event) :
    activeValue now e =
      if e.startTime.nanos ≠ 0 ∧ e.endTime.nanos ≠ 0 ∧
          (now.nanos = e.startTime.nanos ∨ now.nanos = e.endTime.nanos ∨
            (e.startTime.nanos < now.nanos ∧ now.nanos < e.endTime.nanos)) then 1 else 0 := by
  unfold activeValue
  by_cases h : (e.startTime.nanos ≠ 0 ∧ e.endTime.nanos ≠ 0 ∧
      (now.nanos = e.startTime.nanos ∨ now.nanos = e.endTime.nanos ∨
        (e.startTime.nanos < now.nanos ∧ now.nanos < e.endTime.nanos)))
  · rw [if_pos ((activeCond_iff now e).2 h), if_pos h]
  · rw [if_neg (fun hc => h ((activeCond_iff now e).1 hc)), if_neg h]

theorem seconds_neg_iff (d : Int) : Duration.Seconds d < 0 ↔ d < 0 := by
  rw [Duration.Seconds_eq]
  constructor
  · intro h
    by_contra hc
    have h0 : (0 : ℚ) ≤ (d : ℚ) := by exact_mod_cast (not_lt.1 hc)
    have : (0 : ℚ) ≤ (d : ℚ) / 1000000000 := by positivity
    exact absurd h (not_lt.2 this)
  · intro h
    have h0 : (d : ℚ) < 0 := by exact_mod_cast h
    exact div_neg_of_neg_of_pos h0 (by norm_num)

/-- The value of lines 106-109 in terms of instants: the clamped, saturated difference. -/
theorem durationValue_eq (e : Event) :
    durationValue e =
      if e.endTime.nanos < e.startTime.nanos then 0
      else if maxDuration < e.endTime.nanos - e.startTime.nanos then
        (maxDuration : ℚ) / 1000000000
      else ((e.endTime.nanos - e.startTime.nanos : Int) : ℚ) / 1000000000 := by
  unfold durationValue
  simp only [seconds_neg_iff]
  rw [Time.Sub_eq]
  simp only [minDuration, maxDuration]
  by_cases h1 : e.endTime.nanos < e.startTime.nanos
  · rw [if_pos h1]
    have : (if e.endTime.nanos - e.startTime.nanos < -9223372036854775808 then
        (-9223372036854775808 : Int)
      else if 9223372036854775807 < e.endTime.nanos - e.startTime.nanos then 9223372036854775807
      else e.endTime.nanos - e.startTime.nanos) < 0 := by
      split_ifs <;> omega
    rw [if_pos this]
  · rw [if_neg h1]
    have h3 : ¬ (e.endTime.nanos - e.startTime.nanos < -9223372036854775808) := by omega
    rw [if_neg h3]
    by_cases h2 : 9223372036854775807 < e.endTime.nanos - e.startTime.nanos
    · rw [if_pos h2, if_pos h2, if_neg (by omega), Duration.Seconds_eq]
    · rw [if_neg h2, if_neg h2, if_neg (by omega), Duration.Seconds_eq]

theorem durationValue_nonneg (e : Event) : 0 ≤ durationValue e := by
  unfold durationValue
  simp only
  split_ifs with h
  · exact le_refl 0
  · exact not_lt.1 h

theorem valuesOf_collectEvent_active (now : Time) (e : Event) :
    valuesOf (collectEvent now e) Desc.descActive = [activeValue now e] := by
  unfold collectEvent
  simp only [valuesOf_append]
  cases e.startTime.IsZero <;> cases e.endTime.IsZero <;> simp [valuesOf]

theorem valuesOf_collectEvent_duration (now : Time) (e : Event) :
    valuesOf (collectEvent now e) Desc.descDuration =
      if e.startTime.nanos ≠ 0 ∧ e.endTime.nanos ≠ 0 then [durationValue e] else [] := by
  have hs := Time.IsZero_iff e.startTime
  have he := Time.IsZero_iff e.endTime
  unfold collectEvent
  simp only [valuesOf_append]
  cases h1 : e.startTime.IsZero <;> cases h2 : e.endTime.IsZero <;>
    simp [valuesOf, h1, h2] at hs he ⊢ <;> simp [hs, he]

theorem labelsOf_collectEvent (now : Time) (e : Event) (d : Desc) :
    labelsOf (collectEvent now e) d =
      match d with
      | Desc.descStart => if e.startTime.nanos ≠ 0 then [itemLabels e] else []
      | Desc.descEnd => if e.endTime.nanos ≠ 0 then [itemLabels e] else []
      | Desc.descDuration =>
        if e.startTime.nanos ≠ 0 ∧ e.endTime.nanos ≠ 0 then [itemLabels e] else []
      | Desc.descActive => [itemLabels e] := by
  have hs := Time.IsZero_iff e.startTime
  have he := Time.IsZero_iff e.endTime
  unfold collectEvent
  simp only [labelsOf_append]
  cases d <;> cases h1 : e.startTime.IsZero <;> cases h2 : e.endTime.IsZero <;>
    simp [labelsOf, itemLabels, h1, h2] at hs he ⊢ <;> simp [hs, he]

theorem length_collectEvent (now : Time) (e : Event) :
    (collectEvent now e).length =
      (if e.startTime.nanos ≠ 0 then 1 else 0) + (if e.endTime.nanos ≠ 0 then 1 else 0) +
      (if e.startTime.nanos ≠ 0 ∧ e.endTime.nanos ≠ 0 then 1 else 0) + 1 := by
  have hs := Time.IsZero_iff e.startTime
  have he := Time.IsZero_iff e.endTime
  unfold collectEvent
  cases h1 : e.startTime.IsZero <;> cases h2 : e.endTime.IsZero <;>
    simp [h1, h2] at hs he ⊢ <;> simp [hs, he]

end TimeTable

/-! ## The schedule exporter: scrape-time claims -/

namespace TimeTable

open GoTime

theorem valuesOf_collectLoop_active (now : Time) (es : List Event) :
    valuesOf (collectLoop now es) Desc.descActive = es.map (activeValue now) := by
  induction es with
  | nil => simp [collectLoop, valuesOf]
  | cons e rest ih =>
    simp only [collectLoop, valuesOf_append, valuesOf_collectEvent_active, ih, List.map_cons,
      List.singleton_append]

theorem valuesOf_collectLoop_duration (now : Time) (es : List Event) :
    valuesOf (collectLoop now es) Desc.descDuration =
      (es.filter (fun e => decide (e.startTime.nanos ≠ 0 ∧ e.endTime.nanos ≠ 0))).map
        durationValue := by
  induction es with
  | nil => simp [collectLoop, valuesOf]
  | cons e rest ih =>
    simp only [collectLoop, valuesOf_append, valuesOf_collectEvent_duration, ih]
    by_cases h : e.startTime.nanos ≠ 0 ∧ e.endTime.nanos ≠ 0
    · simp [List.filter_cons, h]
    · simp [List.filter_cons, h]

theorem labelsOf_collectLoop (now : Time) (es : List Event) (d : Desc) :
    labelsOf (collectLoop now es) d =
      (es.filter (fun e =>
        match d with
        | Desc.descStart => decide (e.startTime.nanos ≠ 0)
        | Desc.descEnd => decide (e.endTime.nanos ≠ 0)
        | Desc.descDuration => decide (e.startTime.nanos ≠ 0 ∧ e.endTime.nanos ≠ 0)
        | Desc.descActive => true)).map itemLabels := by
  induction es with
  | nil => simp [collectLoop, labelsOf]
  | cons e rest ih =>
    simp only [collectLoop, labelsOf_append, labelsOf_collectEvent, ih]
    cases d
    · by_cases h : e.startTime.nanos ≠ 0 <;> simp [List.filter_cons, h]
    · by_cases h : e.endTime.nanos ≠ 0 <;> simp [List.filter_cons, h]
    · by_cases h : e.startTime.nanos ≠ 0 ∧ e.endTime.nanos ≠ 0 <;> simp [List.filter_cons, h]
    · simp [List.filter_cons]

theorem length_collectLoop (now : Time) (es : List Event)
    (h : ∀ e ∈ es, e.startTime.nanos ≠ 0 ∧ e.endTime.nanos ≠ 0) :
    (collectLoop now es).length = 4 * es.length := by
  induction es with
  | nil => simp [collectLoop]
  | cons e rest ih =>
    have he := h e (List.mem_cons_self e rest)
    have hr := ih (fun x hx => h x (List.mem_cons_of_mem e hx))
    simp only [collectLoop, List.length_append, length_collectEvent, hr, List.length_cons]
    simp [he.1, he.2]
    omega

/-- C1 (amended).  On every scrape `EventCollector.Collect` sends one `event_active`
sample per item, in item order.  Its value is 1 when the item's start and end are
both set (not the zero instant) and `now` is exactly the start, exactly the end, or
strictly between them, and 0 in every other case.  When every item has both
instants set and start not after end, this is: 1 exactly on the closed interval
from start to end and 0 before the start or after the end. -/
theorem Collect_event_active (c : EventCollector) (now : Time) :
    valuesOf (c.Collect now) Desc.descActive =
      c.events.map (fun e =>
        if e.startTime.nanos ≠ 0 ∧ e.endTime.nanos ≠ 0 ∧
            (now.nanos = e.startTime.nanos ∨ now.nanos = e.endTime.nanos ∨
              (e.startTime.nanos < now.nanos ∧ now.nanos < e.endTime.nanos)) then (1 : ℚ)
        else 0) ∧
    ((∀ e ∈ c.events, e.startTime.nanos ≠ 0 ∧ e.endTime.nanos ≠ 0 ∧
        e.startTime.nanos ≤ e.endTime.nanos) →
      valuesOf (c.Collect now) Desc.descActive =
        c.events.map (fun e =>
          if e.startTime.nanos ≤ now.nanos ∧ now.nanos ≤ e.endTime.nanos then (1 : ℚ)
          else 0)) := by
  have hmain : valuesOf (c.Collect now) Desc.descActive = c.events.map (activeValue now) := by
    simp only [EventCollector.Collect, Time.UTC, valuesOf_collectLoop_active]
  refine ⟨?_, ?_⟩
  · rw [hmain]
    exact List.map_congr_left (fun e _ => activeValue_eq now e)
  · intro h
    rw [hmain]
    refine List.map_congr_left (fun e he => ?_)
    obtain ⟨h1, h2, h3⟩ := h e he
    rw [activeValue_eq]
    by_cases hin : e.startTime.nanos ≤ now.nanos ∧ now.nanos ≤ e.endTime.nanos
    · rw [if_pos hin, if_pos]
      exact ⟨h1, h2, by omega⟩
    · rw [if_neg hin, if_neg]
      rintro ⟨_, _, h4⟩
      exact hin (by omega)

/-- Three items around 2025-11-04T11:00:00Z: one running, one over, one starting
exactly now. -/
theorem Collect_event_active_witness :
    valuesOf (EventCollector.Collect ⟨"events.yaml",
      [⟨"a", "talk", "hall", "2025-11-04T10:00:00Z", "2025-11-04T12:00:00Z",
          ⟨63897847200000000000⟩, ⟨63897854400000000000⟩⟩,
       ⟨"b", "setup", "hall", "2025-11-04T00:00:00Z", "2025-11-04T10:00:00Z",
          ⟨63897811200000000000⟩, ⟨63897847200000000000⟩⟩,
       ⟨"c", "lunch", "yard", "2025-11-04T11:00:00Z", "2025-11-04T12:00:00Z",
          ⟨63897850800000000000⟩, ⟨63897854400000000000⟩⟩]⟩
      ⟨63897850800000000000⟩) Desc.descActive = [1, 0, 1] := by
  have h := (Collect_event_active ⟨"events.yaml",
      [⟨"a", "talk", "hall", "2025-11-04T10:00:00Z", "2025-11-04T12:00:00Z",
          ⟨63897847200000000000⟩, ⟨63897854400000000000⟩⟩,
       ⟨"b", "setup", "hall", "2025-11-04T00:00:00Z", "2025-11-04T10:00:00Z",
          ⟨63897811200000000000⟩, ⟨63897847200000000000⟩⟩,
       ⟨"c", "lunch", "yard", "2025-11-04T11:00:00Z", "2025-11-04T12:00:00Z",
          ⟨63897850800000000000⟩, ⟨63897854400000000000⟩⟩]⟩
      ⟨63897850800000000000⟩).2 (by simp)
  rw [h]
  simp

/-- C1, as stated, fails.  (a) The file item with start `0001-01-01T00:00:00Z`
loads, its start is Go's zero instant, and at a scrape inside its window the
sample is 0.  (b) For an item whose end is before its start, a scrape exactly at
the start (so after the end) sends 1. -/
theorem Collect_event_active_counterexample :
    (loadEventsFromFile parseStrict
        (.ok [rawEvent "a" "era" "hall" "0001-01-01T00:00:00Z" "9999-12-31T23:59:59Z"]) =
      ([⟨"a", "era", "hall", "0001-01-01T00:00:00Z", "9999-12-31T23:59:59Z",
          ⟨0⟩, ⟨315537897599000000000⟩⟩], none) ∧
     (0 : Int) ≤ 63897850800000000000 ∧ (63897850800000000000 : Int) ≤ 315537897599000000000 ∧
     valuesOf (EventCollector.Collect ⟨"events.yaml",
        [⟨"a", "era", "hall", "0001-01-01T00:00:00Z", "9999-12-31T23:59:59Z",
          ⟨0⟩, ⟨315537897599000000000⟩⟩]⟩ ⟨63897850800000000000⟩) Desc.descActive = [0]) ∧
    (loadEventsFromFile parseStrict
        (.ok [rawEvent "b" "swap" "hall" "2025-11-04T12:00:00Z" "2025-11-04T10:00:00Z"]) =
      ([⟨"b", "swap", "hall", "2025-11-04T12:00:00Z", "2025-11-04T10:00:00Z",
          ⟨63897854400000000000⟩, ⟨63897847200000000000⟩⟩], none) ∧
     (63897847200000000000 : Int) < 63897854400000000000 ∧
     valuesOf (EventCollector.Collect ⟨"events.yaml",
        [⟨"b", "swap", "hall", "2025-11-04T12:00:00Z", "2025-11-04T10:00:00Z",
          ⟨63897854400000000000⟩, ⟨63897847200000000000⟩⟩]⟩ ⟨63897854400000000000⟩)
        Desc.descActive = [1]) := by
  refine ⟨⟨by decide, by decide, by decide, ?_⟩, ⟨by decide, by decide, ?_⟩⟩
  · simp [EventCollector.Collect, Time.UTC, valuesOf_collectLoop_active, activeValue_eq]
  · simp [EventCollector.Collect, Time.UTC, valuesOf_collectLoop_active, activeValue_eq]

end TimeTable

namespace TimeTable

open GoTime

/-- C2 (amended).  `EventCollector.Collect` sends one `event_duration_seconds`
sample for every item whose start and end are both set (not the zero instant), in
item order.  Its value is 0 when end is before start; it is end minus start in
seconds when end is not before start and the difference fits a Go `Duration` (at
most 9223372036854775807 ns, about 292 years); beyond that it is the saturated
maximum 9223372036.854775807 s.  No sample is negative. -/
theorem Collect_event_duration (c : EventCollector) (now : Time) :
    valuesOf (c.Collect now) Desc.descDuration =
      (c.events.filter (fun e => decide (e.startTime.nanos ≠ 0 ∧ e.endTime.nanos ≠ 0))).map
        (fun e =>
          if e.endTime.nanos < e.startTime.nanos then (0 : ℚ)
          else if 9223372036854775807 < e.endTime.nanos - e.startTime.nanos then
            (9223372036854775807 : ℚ) / 1000000000
          else ((e.endTime.nanos - e.startTime.nanos : Int) : ℚ) / 1000000000) ∧
    (∀ v ∈ valuesOf (c.Collect now) Desc.descDuration, 0 ≤ v) := by
  have hmain : valuesOf (c.Collect now) Desc.descDuration =
      (c.events.filter (fun e => decide (e.startTime.nanos ≠ 0 ∧ e.endTime.nanos ≠ 0))).map
        durationValue := by
    simp only [EventCollector.Collect, Time.UTC, valuesOf_collectLoop_duration]
  refine ⟨?_, ?_⟩
  · rw [hmain]
    refine List.map_congr_left (fun e _ => ?_)
    rw [durationValue_eq]
    simp only [maxDuration, Int.cast_ofNat]
  · intro v hv
    rw [hmain, List.mem_map] at hv
    obtain ⟨e, _, rfl⟩ := hv
    exact durationValue_nonneg e

/-- A two-hour item, an item whose end is one hour before its start, and an item
one thousand years long. -/
theorem Collect_event_duration_witness :
    valuesOf (EventCollector.Collect ⟨"events.yaml",
      [⟨"a", "talk", "hall", "2025-11-04T10:00:00Z", "2025-11-04T12:00:00Z",
          ⟨63897847200000000000⟩, ⟨63897854400000000000⟩⟩,
       ⟨"b", "swap", "hall", "2025-11-04T12:00:00Z", "2025-11-04T11:00:00Z",
          ⟨63897854400000000000⟩, ⟨63897850800000000000⟩⟩]⟩
      ⟨63897850800000000000⟩) Desc.descDuration = [7200, 0] := by
  rw [(Collect_event_duration ⟨"events.yaml",
      [⟨"a", "talk", "hall", "2025-11-04T10:00:00Z", "2025-11-04T12:00:00Z",
          ⟨63897847200000000000⟩, ⟨63897854400000000000⟩⟩,
       ⟨"b", "swap", "hall", "2025-11-04T12:00:00Z", "2025-11-04T11:00:00Z",
          ⟨63897854400000000000⟩, ⟨63897850800000000000⟩⟩]⟩
      ⟨63897850800000000000⟩).1]
  norm_num [List.filter_cons]

/-- C2, as stated, fails: the file item from `1000-01-01T00:00:00Z` to
`2000-01-01T00:00:00Z` loads with both instants set and end after start, its true
length is 31556908800 s, and the sample sent is 9223372036.854775807. -/
theorem Collect_event_duration_counterexample :
    loadEventsFromFile parseStrict
        (.ok [rawEvent "m" "age" "hall" "1000-01-01T00:00:00Z" "2000-01-01T00:00:00Z"]) =
      ([⟨"m", "age", "hall", "1000-01-01T00:00:00Z", "2000-01-01T00:00:00Z",
          ⟨31525372800000000000⟩, ⟨63082281600000000000⟩⟩], none) ∧
    (63082281600000000000 - 31525372800000000000 : Int) = 31556908800 * 1000000000 ∧
    valuesOf (EventCollector.Collect ⟨"events.yaml",
        [⟨"m", "age", "hall", "1000-01-01T00:00:00Z", "2000-01-01T00:00:00Z",
          ⟨31525372800000000000⟩, ⟨63082281600000000000⟩⟩]⟩ ⟨63897850800000000000⟩)
        Desc.descDuration = [(9223372036854775807 : ℚ) / 1000000000] ∧
    (9223372036854775807 : ℚ) / 1000000000 ≠ 31556908800 := by
  refine ⟨by decide, by decide, ?_, by norm_num⟩
  simp only [EventCollector.Collect, Time.UTC, valuesOf_collectLoop_duration]
  norm_num [List.filter_cons, durationValue_eq, maxDuration]

/-- C8 (amended).  For every schedule the collector holds (in particular every
schedule returned by a successful `loadEventsFromFile`), `EventCollector.Collect`
sends, labelled with the item's id, name and location and in item order: one
`event_active` sample for every item; one `event_start_seconds` sample for every
item whose start is not the zero instant `0001-01-01T00:00:00Z`; one
`event_end_seconds` sample for every item whose end is not the zero instant; one
`event_duration_seconds` sample for every item with neither at the zero instant.
When no item has a start or end at the zero instant, each of the four metrics has
exactly one sample per item and a schedule of n items yields exactly 4n samples. -/
theorem Collect_per_item_series (c : EventCollector) (now : Time) :
    labelsOf (c.Collect now) Desc.descActive = c.events.map itemLabels ∧
    labelsOf (c.Collect now) Desc.descStart =
      (c.events.filter (fun e => decide (e.startTime.nanos ≠ 0))).map itemLabels ∧
    labelsOf (c.Collect now) Desc.descEnd =
      (c.events.filter (fun e => decide (e.endTime.nanos ≠ 0))).map itemLabels ∧
    labelsOf (c.Collect now) Desc.descDuration =
      (c.events.filter (fun e => decide (e.startTime.nanos ≠ 0 ∧ e.endTime.nanos ≠ 0))).map
        itemLabels ∧
    ((∀ e ∈ c.events, e.startTime.nanos ≠ 0 ∧ e.endTime.nanos ≠ 0) →
      (∀ d, labelsOf (c.Collect now) d = c.events.map itemLabels) ∧
      (c.Collect now).length = 4 * c.events.length) := by
  simp only [EventCollector.Collect, Time.UTC, labelsOf_collectLoop]
  refine ⟨by simp, trivial, trivial, trivial, ?_⟩
  intro h
  refine ⟨?_, length_collectLoop now c.events h⟩
  intro d
  congr 1
  rw [List.filter_eq_self]
  intro e he
  have := h e he
  cases d <;> simp [this.1, this.2]

/-- A schedule of two ordinary items, as loaded from its decoded file: eight samples. -/
theorem Collect_per_item_series_witness :
    loadEventsFromFile parseStrict
      (.ok [rawEvent "a" "talk" "hall" "2025-11-04T10:00:00Z" "2025-11-04T12:00:00Z",
            rawEvent "b" "lunch" "yard" "2025-11-04T19:00:00+09:00" "2025-11-04T12:00:00Z"]) =
      ([⟨"a", "talk", "hall", "2025-11-04T10:00:00Z", "2025-11-04T12:00:00Z",
          ⟨63897847200000000000⟩, ⟨63897854400000000000⟩⟩,
        ⟨"b", "lunch", "yard", "2025-11-04T19:00:00+09:00", "2025-11-04T12:00:00Z",
          ⟨63897847200000000000⟩, ⟨63897854400000000000⟩⟩], none) ∧
    (EventCollector.Collect ⟨"events.yaml",
      [⟨"a", "talk", "hall", "2025-11-04T10:00:00Z", "2025-11-04T12:00:00Z",
          ⟨63897847200000000000⟩, ⟨63897854400000000000⟩⟩,
       ⟨"b", "lunch", "yard", "2025-11-04T19:00:00+09:00", "2025-11-04T12:00:00Z",
          ⟨63897847200000000000⟩, ⟨63897854400000000000⟩⟩]⟩
      ⟨63897850800000000000⟩).length = 4 * 2 :=
  ⟨by decide,
   ((Collect_per_item_series ⟨"events.yaml",
      [⟨"a", "talk", "hall", "2025-11-04T10:00:00Z", "2025-11-04T12:00:00Z",
          ⟨63897847200000000000⟩, ⟨63897854400000000000⟩⟩,
       ⟨"b", "lunch", "yard", "2025-11-04T19:00:00+09:00", "2025-11-04T12:00:00Z",
          ⟨63897847200000000000⟩, ⟨63897854400000000000⟩⟩]⟩
      ⟨63897850800000000000⟩).2.2.2.2 (by simp)).2⟩

/-- C8, as stated, fails: the file item with start `0001-01-01T00:00:00Z` loads, and
the scrape sends two samples for it (end and active), none for start or duration. -/
theorem Collect_per_item_series_counterexample :
    loadEventsFromFile parseStrict
        (.ok [rawEvent "a" "era" "hall" "0001-01-01T00:00:00Z" "2025-11-04T12:00:00Z"]) =
      ([⟨"a", "era", "hall", "0001-01-01T00:00:00Z", "2025-11-04T12:00:00Z",
          ⟨0⟩, ⟨63897854400000000000⟩⟩], none) ∧
    (EventCollector.Collect ⟨"events.yaml",
        [⟨"a", "era", "hall", "0001-01-01T00:00:00Z", "2025-11-04T12:00:00Z",
          ⟨0⟩, ⟨63897854400000000000⟩⟩]⟩ ⟨63897850800000000000⟩).map (fun m => m.desc) =
      [Desc.descEnd, Desc.descActive] := by
  refine ⟨by decide, by decide⟩

end TimeTable

/-! ## The schedule exporter: loading and the timer refresher -/

namespace TimeTable

open GoTime

theorem parseTimes_cons_ok (parse : String → Except String Time) (ev : Event)
    (rest done : List Event) (tStart tEnd : Time) (h1 : ev.Start ≠ "") (h2 : ev.End ≠ "")
    (h3 : parse ev.Start = .ok tStart) (h4 : parse ev.End = .ok tEnd)
    (h5 : parseTimes parse rest = .ok done) :
    parseTimes parse (ev :: rest) =
      .ok ({ ev with startTime := tStart.UTC, endTime := tEnd.UTC } :: done) := by
  simp [parseTimes, h1, h2, h3, h4, h5]

theorem parseTimes_cons_inv (parse : String → Except String Time) (ev : Event)
    (rest out : List Event) (h : parseTimes parse (ev :: rest) = .ok out) :
    ev.Start ≠ "" ∧ ev.End ≠ "" ∧ ∃ tStart tEnd done, parse ev.Start = .ok tStart ∧
      parse ev.End = .ok tEnd ∧ parseTimes parse rest = .ok done ∧
      out = { ev with startTime := tStart.UTC, endTime := tEnd.UTC } :: done := by
  unfold parseTimes at h
  split_ifs at h with hempty
  have hne : ev.Start ≠ "" ∧ ev.End ≠ "" := by
    constructor
    · intro hc; exact hempty (Or.inl hc)
    · intro hc; exact hempty (Or.inr hc)
  refine ⟨hne.1, hne.2, ?_⟩
  cases hs : parse ev.Start with
  | error err => simp [hs] at h
  | ok tStart =>
    cases he : parse ev.End with
    | error err => simp [hs, he] at h
    | ok tEnd =>
      cases hr : parseTimes parse rest with
      | error err => simp [hs, he, hr] at h
      | ok done =>
        simp only [hs, he, hr, Except.ok.injEq] at h
        exact ⟨tStart, tEnd, done, rfl, rfl, rfl, h.symm⟩

theorem parseTimes_ok_iff (parse : String → Except String Time) (evs : List Event) :
    (∃ out, parseTimes parse evs = .ok out) ↔
      ∀ e ∈ evs, e.Start ≠ "" ∧ e.End ≠ "" ∧ (∃ t, parse e.Start = .ok t) ∧
        (∃ t, parse e.End = .ok t) := by
  induction evs with
  | nil => simp [parseTimes]
  | cons ev rest ih =>
    constructor
    · rintro ⟨out, hout⟩
      obtain ⟨h1, h2, tS, tE, done, h3, h4, h5, _⟩ := parseTimes_cons_inv parse ev rest out hout
      intro e he
      rcases List.mem_cons.1 he with rfl | hmem
      · exact ⟨h1, h2, ⟨tS, h3⟩, ⟨tE, h4⟩⟩
      · exact (ih.1 ⟨done, h5⟩) e hmem
    · intro h
      obtain ⟨h1, h2, ⟨tS, h3⟩, ⟨tE, h4⟩⟩ := h ev (List.mem_cons_self ev rest)
      obtain ⟨done, h5⟩ := ih.2 (fun e he => h e (List.mem_cons_of_mem ev he))
      exact ⟨_, parseTimes_cons_ok parse ev rest done tS tE h1 h2 h3 h4 h5⟩

theorem parseTimes_forall₂ (parse : String → Except String Time) (evs out : List Event)
    (h : parseTimes parse evs = .ok out) :
    List.Forall₂ (fun raw ev => ∃ tStart tEnd, parse raw.Start = .ok tStart ∧
      parse raw.End = .ok tEnd ∧
      ev = { raw with startTime := tStart.UTC, endTime := tEnd.UTC }) evs out := by
  induction evs generalizing out with
  | nil =>
    simp only [parseTimes, Except.ok.injEq] at h
    subst h
    exact List.Forall₂.nil
  | cons ev rest ih =>
    obtain ⟨_, _, tS, tE, done, h3, h4, h5, rfl⟩ := parseTimes_cons_inv parse ev rest out h
    exact List.Forall₂.cons ⟨tS, tE, h3, h4, rfl⟩ (ih done h5)

theorem loadEventsFromFile_ok (parse : String → Except String Time) (evs : List Event) :
    loadEventsFromFile parse (.ok evs) =
      match parseTimes parse evs with
      | .error err => ([], some err)
      | .ok loaded => (loaded, none) := rfl

/-- C3.  For every decoded list of items, the validation loop of
`loadEventsFromFile` returns no error if and only if every item has a non-empty
start string and a non-empty end string that both parse; when it returns an error
it returns no items at all; when it returns no error it returns the same items in
the same order, each unchanged except that its start and end instants are the
parsed values (in UTC). -/
theorem loadEventsFromFile_all_or_nothing (parse : String → Except String Time)
    (evs : List Event) :
    ((loadEventsFromFile parse (.ok evs)).2 = none ↔
      ∀ e ∈ evs, e.Start ≠ "" ∧ e.End ≠ "" ∧ (∃ t, parse e.Start = .ok t) ∧
        (∃ t, parse e.End = .ok t)) ∧
    ((loadEventsFromFile parse (.ok evs)).2 ≠ none →
      (loadEventsFromFile parse (.ok evs)).1 = []) ∧
    ((loadEventsFromFile parse (.ok evs)).2 = none →
      List.Forall₂ (fun raw ev => ∃ tStart tEnd, parse raw.Start = .ok tStart ∧
        parse raw.End = .ok tEnd ∧
        ev = { raw with startTime := tStart.UTC, endTime := tEnd.UTC })
        evs (loadEventsFromFile parse (.ok evs)).1) := by
  rw [loadEventsFromFile_ok, ← parseTimes_ok_iff]
  cases h : parseTimes parse evs with
  | error err => simp
  | ok loaded =>
    refine ⟨by simp, by simp, fun _ => parseTimes_forall₂ parse evs loaded h⟩

/-- A good batch of two items loads whole; the same batch with one unparseable end
is rejected whole. -/
theorem loadEventsFromFile_all_or_nothing_witness :
    (loadEventsFromFile parseStrict
      (.ok [rawEvent "a" "talk" "hall" "2025-11-04T10:00:00Z" "2025-11-04T12:00:00Z",
            rawEvent "b" "lunch" "yard" "2025-11-04T11:00:00Z" "noon"])).1 = [] :=
  (loadEventsFromFile_all_or_nothing parseStrict
      [rawEvent "a" "talk" "hall" "2025-11-04T10:00:00Z" "2025-11-04T12:00:00Z",
       rawEvent "b" "lunch" "yard" "2025-11-04T11:00:00Z" "noon"]).2.1 (by decide)

end TimeTable

namespace TimeTable

open GoTime

/-- C4.  On a poll tick that attempts a load (the file was stat'ed and its
modification time is after the last-seen one): if the load succeeds with events
`E` the stored events become exactly `E`; if the load fails the stored events are
what they were before the tick; in both cases the last-seen modification time
becomes the one observed on this tick. -/
theorem watchTick_state_update (parse : String → Except String Time) (st : WatchState)
    (mod : Time) (decoded : Except String (List Event))
    (hattempt : mod.After st.lastMod = true) :
    (∀ E, loadEventsFromFile parse decoded = (E, none) →
      (watchTick parse st ⟨.ok mod, decoded⟩).events = E) ∧
    (∀ E err, loadEventsFromFile parse decoded = (E, some err) →
      (watchTick parse st ⟨.ok mod, decoded⟩).events = st.events) ∧
    (watchTick parse st ⟨.ok mod, decoded⟩).lastMod = mod := by
  refine ⟨?_, ?_, ?_⟩
  · intro E hE
    simp [watchTick, hattempt, hE]
  · intro E err hE
    simp [watchTick, hattempt, hE]
  · rcases hl : loadEventsFromFile parse decoded with ⟨E, _ | err⟩
    · simp [watchTick, hattempt, hl]
    · simp [watchTick, hattempt, hl]

/-- A collector serving one item sees a newer file whose second item is malformed:
the stored schedule is untouched and the new modification time is remembered. -/
theorem watchTick_state_update_witness :
    (watchTick parseStrict
      ⟨[⟨"a", "talk", "hall", "2025-11-04T10:00:00Z", "2025-11-04T12:00:00Z",
          ⟨63897847200000000000⟩, ⟨63897854400000000000⟩⟩], ⟨63897811200000000000⟩, 1, []⟩
      ⟨.ok ⟨63897850800000000000⟩,
       .ok [rawEvent "a" "talk" "hall" "2025-11-04T10:00:00Z" "2025-11-04T12:00:00Z",
            rawEvent "b" "lunch" "yard" "2025-11-04T11:00:00Z" ""]⟩).events =
      [⟨"a", "talk", "hall", "2025-11-04T10:00:00Z", "2025-11-04T12:00:00Z",
          ⟨63897847200000000000⟩, ⟨63897854400000000000⟩⟩] ∧
    (watchTick parseStrict
      ⟨[⟨"a", "talk", "hall", "2025-11-04T10:00:00Z", "2025-11-04T12:00:00Z",
          ⟨63897847200000000000⟩, ⟨63897854400000000000⟩⟩], ⟨63897811200000000000⟩, 1, []⟩
      ⟨.ok ⟨63897850800000000000⟩,
       .ok [rawEvent "a" "talk" "hall" "2025-11-04T10:00:00Z" "2025-11-04T12:00:00Z",
            rawEvent "b" "lunch" "yard" "2025-11-04T11:00:00Z" ""]⟩).lastMod =
      ⟨63897850800000000000⟩ :=
  ⟨(watchTick_state_update parseStrict
      ⟨[⟨"a", "talk", "hall", "2025-11-04T10:00:00Z", "2025-11-04T12:00:00Z",
          ⟨63897847200000000000⟩, ⟨63897854400000000000⟩⟩], ⟨63897811200000000000⟩, 1, []⟩
      ⟨63897850800000000000⟩
      (.ok [rawEvent "a" "talk" "hall" "2025-11-04T10:00:00Z" "2025-11-04T12:00:00Z",
            rawEvent "b" "lunch" "yard" "2025-11-04T11:00:00Z" ""])
      (by decide)).2.1 []
      "start and end must be provided in RFC3339 format for each event" (by decide),
   (watchTick_state_update parseStrict
      ⟨[⟨"a", "talk", "hall", "2025-11-04T10:00:00Z", "2025-11-04T12:00:00Z",
          ⟨63897847200000000000⟩, ⟨63897854400000000000⟩⟩], ⟨63897811200000000000⟩, 1, []⟩
      ⟨63897850800000000000⟩
      (.ok [rawEvent "a" "talk" "hall" "2025-11-04T10:00:00Z" "2025-11-04T12:00:00Z",
            rawEvent "b" "lunch" "yard" "2025-11-04T11:00:00Z" ""])
      (by decide)).2.2⟩

/-- C9 (amended).  On every poll tick where the file can be stat'ed,
`loadEventsFromFile` is run exactly once when the file's modification time is
strictly after the last-seen value and not at all otherwise; when the modification
time is not after the last-seen value (in particular when it is unchanged) the tick
leaves the stored events and the last-seen time as they were. -/
theorem watchTick_change_detection (parse : String → Except String Time) (st : WatchState)
    (mod : Time) (decoded : Except String (List Event)) :
    ((watchTick parse st ⟨.ok mod, decoded⟩).loads =
      if st.lastMod.nanos < mod.nanos then st.loads + 1 else st.loads) ∧
    (¬ st.lastMod.nanos < mod.nanos → watchTick parse st ⟨.ok mod, decoded⟩ = st) ∧
    (mod = st.lastMod → watchTick parse st ⟨.ok mod, decoded⟩ = st) := by
  have hafter := Time.After_iff mod st.lastMod
  have hskip : ¬ st.lastMod.nanos < mod.nanos → watchTick parse st ⟨.ok mod, decoded⟩ = st := by
    intro h
    have hf : ¬ (mod.After st.lastMod = true) := fun hc => h (hafter.1 hc)
    simp [watchTick, hf]
  refine ⟨?_, hskip, ?_⟩
  · by_cases h : st.lastMod.nanos < mod.nanos
    · have ht : mod.After st.lastMod = true := hafter.2 h
      rw [if_pos h]
      rcases hl : loadEventsFromFile parse decoded with ⟨E, _ | err⟩
      · simp [watchTick, ht, hl]
      · simp [watchTick, ht, hl]
    · rw [if_neg h, hskip h]
  · intro h
    exact hskip (by rw [h]; exact lt_irrefl _)

/-- A tick that sees the last-seen modification time again changes nothing. -/
theorem watchTick_change_detection_witness :
    watchTick parseStrict ⟨[], ⟨63897850800000000000⟩, 1, []⟩
      ⟨.ok ⟨63897850800000000000⟩,
       .ok [rawEvent "a" "talk" "hall" "2025-11-04T10:00:00Z" "2025-11-04T12:00:00Z"]⟩ =
      ⟨[], ⟨63897850800000000000⟩, 1, []⟩ :=
  (watchTick_change_detection parseStrict ⟨[], ⟨63897850800000000000⟩, 1, []⟩
    ⟨63897850800000000000⟩
    (.ok [rawEvent "a" "talk" "hall" "2025-11-04T10:00:00Z" "2025-11-04T12:00:00Z"])).2.2 rfl

/-- C9, as stated, fails.  From the initial state, a first tick sees the file with
modification time 2025-11-04T11:00:00Z and loads it; a second tick sees the older
time 2025-11-04T10:00:00Z (a restored copy with other content).  The time differs
from the last-seen one, yet the second tick runs no load: one load in total, and
the schedule and last-seen time of the first tick are kept. -/
theorem watchTick_change_detection_counterexample :
    (⟨63897847200000000000⟩ : Time) ≠ ⟨63897850800000000000⟩ ∧
    (watchLoop parseStrict (WatchState.init [])
      [⟨.ok ⟨63897850800000000000⟩,
        .ok [rawEvent "a" "talk" "hall" "2025-11-04T10:00:00Z" "2025-11-04T12:00:00Z"]⟩,
       ⟨.ok ⟨63897847200000000000⟩,
        .ok [rawEvent "b" "lunch" "yard" "2025-11-04T11:00:00Z" "2025-11-04T12:00:00Z"]⟩]).loads
      = 1 ∧
    (watchLoop parseStrict (WatchState.init [])
      [⟨.ok ⟨63897850800000000000⟩,
        .ok [rawEvent "a" "talk" "hall" "2025-11-04T10:00:00Z" "2025-11-04T12:00:00Z"]⟩,
       ⟨.ok ⟨63897847200000000000⟩,
        .ok [rawEvent "b" "lunch" "yard" "2025-11-04T11:00:00Z" "2025-11-04T12:00:00Z"]⟩]).events
      = [⟨"a", "talk", "hall", "2025-11-04T10:00:00Z", "2025-11-04T12:00:00Z",
          ⟨63897847200000000000⟩, ⟨63897854400000000000⟩⟩] ∧
    (watchLoop parseStrict (WatchState.init [])
      [⟨.ok ⟨63897850800000000000⟩,
        .ok [rawEvent "a" "talk" "hall" "2025-11-04T10:00:00Z" "2025-11-04T12:00:00Z"]⟩,
       ⟨.ok ⟨63897847200000000000⟩,
        .ok [rawEvent "b" "lunch" "yard" "2025-11-04T11:00:00Z" "2025-11-04T12:00:00Z"]⟩]).lastMod
      = ⟨63897850800000000000⟩ := by
  refine ⟨by decide, by decide, by decide, by decide⟩

end TimeTable

/-! ## The speedtest exporter -/

namespace NetworkExporter

/-- C5.  For every payload that deserializes successfully, `runSpeedtest` returns
the missing-bandwidth error exactly when the download and the upload bandwidth are
both zero; when at least one is non-zero it returns the decoded result unchanged. -/
theorem runSpeedtest_missing_bandwidth
    (unmarshal : String → Except String speedtestResult) (cmd : CmdResult)
    (result : speedtestResult) (hcmd : cmd.err = none)
    (hdec : unmarshal cmd.output = .ok result) :
    (runSpeedtest unmarshal cmd = .error RunError.missingBandwidth ↔
      result.Download.Bandwidth = 0 ∧ result.Upload.Bandwidth = 0) ∧
    (¬ (result.Download.Bandwidth = 0 ∧ result.Upload.Bandwidth = 0) →
      runSpeedtest unmarshal cmd = .ok result) := by
  by_cases h : result.Download.Bandwidth = 0 ∧ result.Upload.Bandwidth = 0
  · simp [runSpeedtest, hcmd, hdec, h.1, h.2]
  · have hb : (result.Download.Bandwidth == 0 && result.Upload.Bandwidth == 0) = false := by
      rw [Bool.eq_false_iff]
      intro hc
      simp only [Bool.and_eq_true, beq_iff_eq] at hc
      exact h hc
    simp [runSpeedtest, hcmd, hdec, h, hb]

/-- The all-zero payload is rejected and a payload with only the upload at zero is
returned as decoded. -/
theorem runSpeedtest_missing_bandwidth_witness :
    runSpeedtest (fun _ => .ok zeroResult) ⟨"\x7b\x7d", none⟩ =
      .error RunError.missingBandwidth ∧
    runSpeedtest
      (fun _ => .ok { sampleResult with Upload := ⟨0, 0, 0, ⟨0, 0, 0, 0⟩⟩ })
      ⟨"\x7b\x7d", none⟩ = .ok { sampleResult with Upload := ⟨0, 0, 0, ⟨0, 0, 0, 0⟩⟩ } :=
  ⟨(runSpeedtest_missing_bandwidth (fun _ => .ok zeroResult) ⟨"\x7b\x7d", none⟩ zeroResult
      rfl rfl).1.2 ⟨rfl, rfl⟩,
   (runSpeedtest_missing_bandwidth
      (fun _ => .ok { sampleResult with Upload := ⟨0, 0, 0, ⟨0, 0, 0, 0⟩⟩ })
      ⟨"\x7b\x7d", none⟩ { sampleResult with Upload := ⟨0, 0, 0, ⟨0, 0, 0, 0⟩⟩ }
      rfl rfl).2 (by simp [sampleResult])⟩

end NetworkExporter

namespace NetworkExporter

theorem Collect_ok (unmarshal : String → Except String speedtestResult) (cmd : CmdResult)
    (elapsed : ℚ) (result : speedtestResult) (h : runSpeedtest unmarshal cmd = .ok result) :
    Collect unmarshal cmd elapsed = collectResult result elapsed := by
  simp [Collect, h]

theorem Collect_error (unmarshal : String → Except String speedtestResult) (cmd : CmdResult)
    (elapsed : ℚ) (err : RunError) (h : runSpeedtest unmarshal cmd = .error err) :
    Collect unmarshal cmd elapsed =
      [⟨Desc.scrapeSuccess, 0, []⟩, ⟨Desc.scrapeDuration, elapsed, []⟩] := by
  simp [Collect, h]

/-- C6.  For every result accepted by `runSpeedtest`, `exporter.Collect` publishes
exactly one sample for each bandwidth, latency and jitter figure: the download and
upload bandwidth as the source value times 8, and every download, upload and ping
latency figure and every jitter figure as the source value divided by 1000.  In
particular a source bandwidth of 1,000,000 publishes as 8,000,000 and a source
latency of 1000 publishes as 1. -/
theorem Collect_unit_conversion (unmarshal : String → Except String speedtestResult)
    (cmd : CmdResult) (elapsed : ℚ) (result : speedtestResult)
    (h : runSpeedtest unmarshal cmd = .ok result) :
    valuesOf (Collect unmarshal cmd elapsed) Desc.downloadBandwidth [] =
      [result.Download.Bandwidth * 8] ∧
    valuesOf (Collect unmarshal cmd elapsed) Desc.uploadBandwidth [] =
      [result.Upload.Bandwidth * 8] ∧
    valuesOf (Collect unmarshal cmd elapsed) Desc.downloadLatency ["iqm"] =
      [result.Download.Latency.IQM / 1000] ∧
    valuesOf (Collect unmarshal cmd elapsed) Desc.downloadLatency ["low"] =
      [result.Download.Latency.Low / 1000] ∧
    valuesOf (Collect unmarshal cmd elapsed) Desc.downloadLatency ["high"] =
      [result.Download.Latency.High / 1000] ∧
    valuesOf (Collect unmarshal cmd elapsed) Desc.downloadLatency ["jitter"] =
      [result.Download.Latency.Jitter / 1000] ∧
    valuesOf (Collect unmarshal cmd elapsed) Desc.uploadLatency ["iqm"] =
      [result.Upload.Latency.IQM / 1000] ∧
    valuesOf (Collect unmarshal cmd elapsed) Desc.uploadLatency ["low"] =
      [result.Upload.Latency.Low / 1000] ∧
    valuesOf (Collect unmarshal cmd elapsed) Desc.uploadLatency ["high"] =
      [result.Upload.Latency.High / 1000] ∧
    valuesOf (Collect unmarshal cmd elapsed) Desc.uploadLatency ["jitter"] =
      [result.Upload.Latency.Jitter / 1000] ∧
    valuesOf (Collect unmarshal cmd elapsed) Desc.pingLatency ["latency"] =
      [result.Ping.Latency / 1000] ∧
    valuesOf (Collect unmarshal cmd elapsed) Desc.pingLatency ["low"] =
      [result.Ping.Low / 1000] ∧
    valuesOf (Collect unmarshal cmd elapsed) Desc.pingLatency ["high"] =
      [result.Ping.High / 1000] ∧
    valuesOf (Collect unmarshal cmd elapsed) Desc.pingJitter [] =
      [result.Ping.Jitter / 1000] ∧
    (result.Download.Bandwidth = 1000000 →
      valuesOf (Collect unmarshal cmd elapsed) Desc.downloadBandwidth [] = [8000000]) ∧
    (result.Upload.Bandwidth = 1000000 →
      valuesOf (Collect unmarshal cmd elapsed) Desc.uploadBandwidth [] = [8000000]) ∧
    (result.Ping.Latency = 1000 →
      valuesOf (Collect unmarshal cmd elapsed) Desc.pingLatency ["latency"] = [1]) := by
  rw [Collect_ok unmarshal cmd elapsed result h]
  refine ⟨?_, ?_, ?_, ?_, ?_, ?_, ?_, ?_, ?_, ?_, ?_, ?_, ?_, ?_, ?_, ?_, ?_⟩
  all_goals first
    | (simp [collectResult, valuesOf]; done)
    | (intro hv; simp [collectResult, valuesOf, hv]; done)
    | (intro hv; simp [collectResult, valuesOf, hv]; norm_num)

/-- The reading with bandwidths 1,000,000 and latencies 1000 publishes 8,000,000
and 1. -/
theorem Collect_unit_conversion_witness :
    valuesOf (Collect (fun _ => .ok sampleResult) ⟨"\x7b\x7d", none⟩ 20)
      Desc.downloadBandwidth [] = [8000000] ∧
    valuesOf (Collect (fun _ => .ok sampleResult) ⟨"\x7b\x7d", none⟩ 20)
      Desc.uploadBandwidth [] = [8000000] ∧
    valuesOf (Collect (fun _ => .ok sampleResult) ⟨"\x7b\x7d", none⟩ 20)
      Desc.pingLatency ["latency"] = [1] :=
  ⟨(Collect_unit_conversion (fun _ => .ok sampleResult) ⟨"\x7b\x7d", none⟩ 20 sampleResult
      (by simp [runSpeedtest, sampleResult])).2.2.2.2.2.2.2.2.2.2.2.2.2.2.1 rfl,
   (Collect_unit_conversion (fun _ => .ok sampleResult) ⟨"\x7b\x7d", none⟩ 20 sampleResult
      (by simp [runSpeedtest, sampleResult])).2.2.2.2.2.2.2.2.2.2.2.2.2.2.2.1 rfl,
   (Collect_unit_conversion (fun _ => .ok sampleResult) ⟨"\x7b\x7d", none⟩ 20 sampleResult
      (by simp [runSpeedtest, sampleResult])).2.2.2.2.2.2.2.2.2.2.2.2.2.2.2.2 rfl⟩

/-- C7.  On every scrape `exporter.Collect` (a total function of the subprocess
outcome) sends exactly one `scrape_success` sample and exactly one
`scrape_duration` sample; `scrape_success` is 0 exactly when `runSpeedtest`
returned an error and 1 exactly when it returned a result; and when `runSpeedtest`
fails these two samples are the only ones sent. -/
theorem Collect_scrape_indicators (unmarshal : String → Except String speedtestResult)
    (cmd : CmdResult) (elapsed : ℚ) :
    countOf (Collect unmarshal cmd elapsed) Desc.scrapeSuccess = 1 ∧
    countOf (Collect unmarshal cmd elapsed) Desc.scrapeDuration = 1 ∧
    (valuesOf (Collect unmarshal cmd elapsed) Desc.scrapeSuccess [] = [0] ↔
      ∃ err, runSpeedtest unmarshal cmd = .error err) ∧
    (valuesOf (Collect unmarshal cmd elapsed) Desc.scrapeSuccess [] = [1] ↔
      ∃ result, runSpeedtest unmarshal cmd = .ok result) ∧
    valuesOf (Collect unmarshal cmd elapsed) Desc.scrapeDuration [] = [elapsed] ∧
    ((∃ err, runSpeedtest unmarshal cmd = .error err) →
      (Collect unmarshal cmd elapsed).map (fun m => m.desc) =
        [Desc.scrapeSuccess, Desc.scrapeDuration]) := by
  cases h : runSpeedtest unmarshal cmd with
  | error err =>
    rw [Collect_error unmarshal cmd elapsed err h]
    simp [countOf, valuesOf]
  | ok result =>
    rw [Collect_ok unmarshal cmd elapsed result h]
    simp [countOf, valuesOf, collectResult]

/-- A scrape whose subprocess exits non-zero sends success 0 and the duration,
nothing else. -/
theorem Collect_scrape_indicators_witness :
    (Collect (fun _ => .ok sampleResult) ⟨"speedtest: network unreachable",
      some "exit status 2"⟩ 3).map (fun m => m.desc) =
      [Desc.scrapeSuccess, Desc.scrapeDuration] :=
  (Collect_scrape_indicators (fun _ => .ok sampleResult) ⟨"speedtest: network unreachable",
      some "exit status 2"⟩ 3).2.2.2.2.2
    ⟨RunError.commandFailed "exit status 2" "speedtest: network unreachable", rfl⟩

/-- C10 (amended).  On every scrape where `runSpeedtest` succeeds,
`exporter.Collect` sends at least one sample for each of the nine metrics that
`exporter.Describe` announces.  On a scrape where `runSpeedtest` failed it sends
samples for scrape duration and scrape success and for no other announced metric. -/
theorem Collect_covers_Describe (unmarshal : String → Except String speedtestResult)
    (cmd : CmdResult) (elapsed : ℚ) :
    ((∃ result, runSpeedtest unmarshal cmd = .ok result) →
      ∀ d ∈ Describe, 1 ≤ countOf (Collect unmarshal cmd elapsed) d) ∧
    ((∃ err, runSpeedtest unmarshal cmd = .error err) →
      ∀ d ∈ Describe, (1 ≤ countOf (Collect unmarshal cmd elapsed) d ↔
        d = Desc.scrapeDuration ∨ d = Desc.scrapeSuccess)) := by
  refine ⟨?_, ?_⟩
  · rintro ⟨result, h⟩ d _
    rw [Collect_ok unmarshal cmd elapsed result h]
    cases d <;> simp [countOf, collectResult]
  · rintro ⟨err, h⟩ d _
    rw [Collect_error unmarshal cmd elapsed err h]
    cases d <;> simp [countOf]

/-- A successful scrape has a download-bandwidth sample. -/
theorem Collect_covers_Describe_witness :
    1 ≤ countOf (Collect (fun _ => .ok sampleResult) ⟨"\x7b\x7d", none⟩ 20)
      Desc.downloadBandwidth :=
  (Collect_covers_Describe (fun _ => .ok sampleResult) ⟨"\x7b\x7d", none⟩ 20).1
    ⟨sampleResult, by simp [runSpeedtest, sampleResult]⟩ Desc.downloadBandwidth (by decide)

/-- C10, as stated, fails: on a scrape whose subprocess exits non-zero, the announced
download-bandwidth metric (like six others) gets no sample. -/
theorem Collect_covers_Describe_counterexample :
    Desc.downloadBandwidth ∈ Describe ∧
    runSpeedtest (fun _ => .ok sampleResult)
      ⟨"speedtest: network unreachable", some "exit status 2"⟩ =
      .error (RunError.commandFailed "exit status 2" "speedtest: network unreachable") ∧
    countOf (Collect (fun _ => .ok sampleResult)
      ⟨"speedtest: network unreachable", some "exit status 2"⟩ 3) Desc.downloadBandwidth = 0 ∧
    (Describe.filter (fun d => decide (countOf (Collect (fun _ => .ok sampleResult)
      ⟨"speedtest: network unreachable", some "exit status 2"⟩ 3) d = 0))).length = 7 := by
  refine ⟨by decide, rfl, ?_, ?_⟩
  · simp [Collect, runSpeedtest, countOf]
  · simp [Collect, runSpeedtest, countOf, Describe, List.filter_cons]

end NetworkExporter
